import Mathlib

/-!
Shallow embedding of the yfinance-mcp request-to-result layer
(`src/yfmcp/server.py`) and proofs of the specification claims.

Modelling conventions:
* Python `datetime` objects are `PyDateTime` records; `datetime.fromisoformat`
  is `parseISO` (covering the `YYYY-MM-DD`, `YYYY-MM-DD HH:MM[:SS]` and
  `YYYY-MM-DDTHH:MM[:SS]` forms; fractional seconds and timezone offsets are
  outside the model); `timedelta(days := n)` addition is `PyDateTime.addDays`;
  `datetime.fromtimestamp(..).strftime("%Y-%m-%d %H:%M:%S")` is `formatEpoch`
  (UTC).  Calendar arithmetic uses the standard civil-from-days /
  days-from-civil algorithms.
* The external market-data provider is passed in as data: an ordered
  association list for `top_etfs` / `top_mutual_funds`, an
  `Except String (Option (List α))` for a tabular fetch that can raise
  (`.error`) or yield no table (`.ok none`), and a per-industry function for
  the grouped resolvers.  Table rows are an abstract type `α`.
* Python exceptions propagating out of a handler are the `.raised`/`.error`
  constructors; strings returned directly are modelled as strings, and the
  `json.dumps` of an error object / record list is modelled structurally by
  the `jsonError` / `records` / `result` constructors carrying the same data.
* Prices are `Rat` (the float arithmetic here is exact on the values used in
  the claims; the formulas are embedded verbatim).
-/

namespace Yfmcp

/-! ### Civil calendar arithmetic (Hinnant algorithms, truncating division) -/

def daysFromCivil (y m d : Int) : Int :=
  let y2 := y - (if m ≤ 2 then 1 else 0)
  let era := (if 0 ≤ y2 then y2 else y2 - 399) / 400
  let yoe := y2 - era * 400
  let doy := (153 * (m + (if 2 < m then -3 else 9)) + 2) / 5 + d - 1
  let doe := yoe * 365 + yoe / 4 - yoe / 100 + doy
  era * 146097 + doe - 719468

def civilFromDays (z0 : Int) : Int × Int × Int :=
  let z := z0 + 719468
  let era := (if 0 ≤ z then z else z - 146096) / 146097
  let doe := z - era * 146097
  let yoe := (doe - doe / 1460 + doe / 36524 - doe / 146096) / 365
  let y := yoe + era * 400
  let doy := doe - (365 * yoe + yoe / 4 - yoe / 100)
  let mp := (5 * doy + 2) / 153
  let d := doy - (153 * mp + 2) / 5 + 1
  let m := mp + (if mp < 10 then 3 else -9)
  (y + (if m ≤ 2 then 1 else 0), m, d)

/-- A naive Python `datetime` (microseconds are outside the model). -/
structure PyDateTime where
  year : Nat
  month : Nat
  day : Nat
  hour : Nat
  minute : Nat
  second : Nat
deriving DecidableEq

/-- Position of a naive datetime on the timeline, in seconds from the epoch.
`datetime` comparison is field-lexicographic, which agrees with comparison of
these second counts. -/
def PyDateTime.toSecs (t : PyDateTime) : Int :=
  daysFromCivil (t.year : Int) (t.month : Int) (t.day : Int) * 86400
    + (t.hour : Int) * 3600 + (t.minute : Int) * 60 + (t.second : Int)

def dtOfSecs (n : Int) : PyDateTime :=
  let days := n.ediv 86400
  let rem := (n.emod 86400).toNat
  let ymd := civilFromDays days
  ⟨ymd.1.toNat, ymd.2.1.toNat, ymd.2.2.toNat, rem / 3600, rem % 3600 / 60, rem % 60⟩

/-- `t + timedelta(days := n)` on a naive datetime. -/
def PyDateTime.addDays (t : PyDateTime) (n : Int) : PyDateTime :=
  dtOfSecs (t.toSecs + n * 86400)

def pad2 (n : Nat) : String :=
  if n < 10 then "0" ++ toString n else toString n

def pad4 (n : Nat) : String :=
  if n < 10 then "000" ++ toString n
  else if n < 100 then "00" ++ toString n
  else if n < 1000 then "0" ++ toString n
  else toString n

/-- `strftime("%Y-%m-%d %H:%M:%S")`. -/
def formatDateTime (t : PyDateTime) : String :=
  pad4 t.year ++ "-" ++ pad2 t.month ++ "-" ++ pad2 t.day ++ " "
    ++ pad2 t.hour ++ ":" ++ pad2 t.minute ++ ":" ++ pad2 t.second

/-- `datetime.fromtimestamp(n).strftime("%Y-%m-%d %H:%M:%S")` (UTC). -/
def formatEpoch (n : Int) : String :=
  formatDateTime (dtOfSecs n)

/-! ### `datetime.fromisoformat` -/

def isLeap (y : Nat) : Bool :=
  y % 4 == 0 && (y % 100 != 0 || y % 400 == 0)

def daysInMonth (y m : Nat) : Nat :=
  if m == 2 then (if isLeap y then 29 else 28)
  else if m == 4 || m == 6 || m == 9 || m == 11 then 30
  else 31

def digitVal (c : Char) : Option Nat :=
  if c.isDigit then some (c.toNat - 48) else none

def parseDateChars : List Char → Option (Nat × Nat × Nat)
  | [y1, y2, y3, y4, c1, m1, m2, c2, d1, d2] =>
    if c1 = '-' ∧ c2 = '-' then
      match digitVal y1, digitVal y2, digitVal y3, digitVal y4,
            digitVal m1, digitVal m2, digitVal d1, digitVal d2 with
      | some a, some b, some c, some d, some e, some f, some g, some h =>
        let year := 1000 * a + 100 * b + 10 * c + d
        let month := 10 * e + f
        let day := 10 * g + h
        if 1 ≤ year ∧ 1 ≤ month ∧ month ≤ 12 ∧ 1 ≤ day ∧ day ≤ daysInMonth year month then
          some (year, month, day)
        else none
      | _, _, _, _, _, _, _, _ => none
    else none
  | _ => none

def parseTimeChars : List Char → Option (Nat × Nat × Nat)
  | [h1, h2, c1, m1, m2] =>
    if c1 = ':' then
      match digitVal h1, digitVal h2, digitVal m1, digitVal m2 with
      | some a, some b, some c, some d =>
        let hour := 10 * a + b
        let minute := 10 * c + d
        if hour ≤ 23 ∧ minute ≤ 59 then some (hour, minute, 0) else none
      | _, _, _, _ => none
    else none
  | [h1, h2, c1, m1, m2, c2, s1, s2] =>
    if c1 = ':' ∧ c2 = ':' then
      match digitVal h1, digitVal h2, digitVal m1, digitVal m2,
            digitVal s1, digitVal s2 with
      | some a, some b, some c, some d, some e, some f =>
        let hour := 10 * a + b
        let minute := 10 * c + d
        let second := 10 * e + f
        if hour ≤ 23 ∧ minute ≤ 59 ∧ second ≤ 59 then some (hour, minute, second)
        else none
      | _, _, _, _, _, _ => none
    else none
  | _ => none

/-- `datetime.fromisoformat` on the modelled forms: a bare calendar date, or a
date followed by `T` or a space and `HH:MM` or `HH:MM:SS`. -/
def parseISO (s : String) : Option PyDateTime :=
  match s.toList with
  | [a, b, c, d, e, f, g, h, i, j] =>
    match parseDateChars [a, b, c, d, e, f, g, h, i, j] with
    | some (y, mo, dd) => some ⟨y, mo, dd, 0, 0, 0⟩
    | none => none
  | a :: b :: c :: d :: e :: f :: g :: h :: i :: j :: sep :: rest =>
    if sep = 'T' ∨ sep = ' ' then
      match parseDateChars [a, b, c, d, e, f, g, h, i, j], parseTimeChars rest with
      | some (y, mo, dd), some (hh, mi, ss) => some ⟨y, mo, dd, hh, mi, ss⟩
      | _, _ => none
    else none
  | _ => none

/-! ### `get_ticker_info` — timestamp normalizer (server.py lines 22-39) -/

/-- A Python dict key: a string, or any non-string key. -/
inductive PyKey where
  | str (s : String)
  | other
deriving DecidableEq

/-- A Python value as far as the normalizer can observe it: an integer
(epoch-seconds candidates), a string, `None`, or anything else. -/
inductive PyVal where
  | int (n : Int)
  | str (s : String)
  | null
  | other
deriving DecidableEq

/-- Python `str.lower()` (ASCII range, which covers every key and selector
this server lowercases). -/
def pyLower (s : String) : String :=
  String.mk (s.toList.map Char.toLower)

/-- The suffix tuple of `key.lower().endswith((...))`. -/
def dateSuffixes : List String :=
  ["date", "start", "end", "timestamp", "time", "quarter"]

def hasDateSuffix (k : String) : Bool :=
  dateSuffixes.any fun suf => suf.toList.isSuffixOf (pyLower k).toList

/-- `datetime.fromtimestamp` accepts timestamps landing in years 1..9999. -/
def epochInRange (n : Int) : Bool :=
  -62135596800 ≤ n && n ≤ 253402300799

/-- `datetime.fromtimestamp(v).strftime("%Y-%m-%d %H:%M:%S")`, `none` when the
call raises (non-numeric value or out-of-range timestamp). -/
def fromtimestampOpt : PyVal → Option String
  | .int n => if epochInRange n then some (formatEpoch n) else none
  | _ => none

/-- One iteration of the conversion loop: rewrite the value in place on
success, keep the entry untouched on any failure or for non-string keys. -/
def convertEntry : PyKey × PyVal → PyKey × PyVal
  | (.str k, v) =>
    if hasDateSuffix k then
      match fromtimestampOpt v with
      | some t => (.str k, .str t)
      | none => (.str k, v)
    else (.str k, v)
  | (.other, v) => (.other, v)

/-- The whole normalizer: the provider record with every date-like field
rewritten best-effort.  (`json.dumps(info, ensure_ascii := False)` then
serializes exactly these entries.) -/
def get_ticker_info (info : List (PyKey × PyVal)) : List (PyKey × PyVal) :=
  info.map convertEntry

/-! ### `search` (server.py lines 50-65) -/

/-- The three sub-results of one `yf.Search(query)` call. -/
structure SearchData (α : Type) where
  all : α
  quotes : α
  news : α

inductive SearchOut (α : Type) where
  | json (v : α)
  | plain (s : String)
deriving DecidableEq

def search {α : Type} (s : SearchData α) (search_type : String) : SearchOut α :=
  let lowered := pyLower search_type
  if lowered = "all" then .json s.all
  else if lowered = "quotes" then .json s.quotes
  else if lowered = "news" then .json s.news
  else .plain "Invalid output_type. Use 'all', 'quotes', or 'news'."

/-! ### Top-entity resolvers (server.py lines 68-162) -/

/-- `get_top_etfs` over the sector's ordered symbol→name mapping. -/
def get_top_etfs (top_etfs : List (String × String)) (top_n : Int) : String :=
  if top_n < 1 then "top_n must be greater than 0"
  else
    String.intercalate "\n"
      ((top_etfs.map fun p => p.1 ++ ": " ++ p.2).take top_n.toNat)

/-- `get_top_mutual_funds`.  Note the source (line 92) joins the whole
mapping and never slices with `top_n`. -/
def get_top_mutual_funds (top_mutual_funds : List (String × String)) (top_n : Int) : String :=
  if top_n < 1 then "top_n must be greater than 0"
  else
    String.intercalate "\n" (top_mutual_funds.map fun p => p.1 ++ ": " ++ p.2)

inductive CompaniesOut (α : Type) where
  | plain (s : String)
  | jsonError (msg : String)
  | records (rows : List α)
deriving DecidableEq

/-- `get_top_companies`: the provider fetch is the `Except` argument (`.error`
when `yf.Sector(..).top_companies` raises, `.ok none` when it yields no
table, `.ok (some df)` with the ordered rows otherwise). -/
def get_top_companies {α : Type} (sector : String) (top_n : Int)
    (top_companies : Except String (Option (List α))) : CompaniesOut α :=
  if top_n < 1 then .plain "top_n must be greater than 0"
  else
    match top_companies with
    | .error e =>
      .jsonError ("Failed to get top companies for sector '" ++ sector ++ "': " ++ e)
    | .ok none =>
      .jsonError ("No top companies available for " ++ sector ++ " sector.")
    | .ok (some df) => .records (df.take top_n.toNat)

inductive GroupedOut (α : Type) where
  | plain (s : String)
  | raised (e : String)
  | results (groups : List (String × List α))
deriving DecidableEq

/-- The per-industry loop shared by the two grouped resolvers: a raised
provider exception propagates (discarding the partial list); an industry
with no table is skipped; otherwise the first `top_n` rows are appended in
iteration order. -/
def groupedLoop {α : Type} (provider : String → Except String (Option (List α)))
    (top_n : Int) : List String → Except String (List (String × List α))
  | [] => .ok []
  | industry :: rest =>
    match provider industry with
    | .error e => .error e
    | .ok none => groupedLoop provider top_n rest
    | .ok (some df) =>
      match groupedLoop provider top_n rest with
      | .error e => .error e
      | .ok acc => .ok ((industry, df.take top_n.toNat) :: acc)

/-- `get_top_growth_companies`: `industries` is `SECTOR_INDUSTY_MAPPING[sector]`
and `provider i` the result of reading `yf.Industry(i).top_growth_companies`.
(The JSON field naming the per-industry rows is the constant string
"top_growth_companies" and is left implicit in `GroupedOut`.) -/
def get_top_growth_companies {α : Type} (top_n : Int)
    (provider : String → Except String (Option (List α)))
    (industries : List String) : GroupedOut α :=
  if top_n < 1 then .plain "top_n must be greater than 0"
  else
    match groupedLoop provider top_n industries with
    | .error e => .raised e
    | .ok groups => .results groups

/-- `get_top_performing_companies`: same loop over
`yf.Industry(i).top_performing_companies`. -/
def get_top_performing_companies {α : Type} (top_n : Int)
    (provider : String → Except String (Option (List α)))
    (industries : List String) : GroupedOut α :=
  if top_n < 1 then .plain "top_n must be greater than 0"
  else
    match groupedLoop provider top_n industries with
    | .error e => .raised e
    | .ok groups => .results groups

/-! ### `calculate_profit_loss` (server.py lines 203-262) -/

structure PLResult where
  symbol : String
  start_date : String
  end_date : String
  start_price : Rat
  end_price : Rat
  profit_loss : Rat
  percent_change : Option Rat
deriving DecidableEq

inductive PLOut where
  | jsonError (msg : String)
  | result (r : PLResult)
deriving DecidableEq

/-- `f"Invalid date format: {exc}"` with the `ValueError` text raised by
`datetime.fromisoformat`. -/
def invalidDateMsg (s : String) : String :=
  "Invalid date format: Invalid isoformat string: '" ++ s ++ "'"

def noHistoryMsg : String :=
  "No historical data available for the given symbol and date range. " ++
    "Please verify the symbol and that the dates fall on trading days."

/-- The post-fetch part of `calculate_profit_loss` (lines 234-262), applied
to the fetched daily Close series in time order. -/
def plFromHistory (symbol start_date end_date : String) (history : List Rat) : PLOut :=
  match history with
  | [] => .jsonError noHistoryMsg
  | c :: cs =>
    let start_price := c
    let end_price := (c :: cs).getLastD 0
    let profit_loss := end_price - start_price
    let percent_change : Option Rat :=
      if start_price ≠ 0 then some (profit_loss / start_price * 100) else none
    .result ⟨symbol, start_date, end_date, start_price, end_price, profit_loss,
      percent_change⟩

/-- `calculate_profit_loss`; `fetch start end` is
`ticker.history(start := start, end := end, interval := "1d", rounding := True)`
reduced to its Close column in ascending time order. -/
def calculate_profit_loss (fetch : PyDateTime → PyDateTime → List Rat)
    (symbol start_date end_date : String) : PLOut :=
  match parseISO start_date with
  | none => .jsonError (invalidDateMsg start_date)
  | some start_dt =>
    match parseISO end_date with
    | none => .jsonError (invalidDateMsg end_date)
    | some end_dt =>
      if end_dt.toSecs ≤ start_dt.toSecs then
        .jsonError "start_date must be earlier than end_date"
      else
        plFromHistory symbol start_date end_date
          (fetch start_dt (end_dt.addDays 1))

/-! ### Helper lemmas -/

theorem groupedLoop_error_abort {α : Type}
    (provider : String → Except String (Option (List α))) (top_n : Int)
    (e bad : String) (hbad : provider bad = .error e) :
    ∀ pre post, (∀ i ∈ pre, ∀ msg, provider i ≠ .error msg) →
      groupedLoop provider top_n (pre ++ bad :: post) = .error e := by
  intro pre
  induction pre with
  | nil => intro post _; simp [groupedLoop, hbad]
  | cons hd tl ih =>
    intro post hpre
    have hhd : ∀ msg, provider hd ≠ .error msg := hpre hd (by simp)
    have htl : ∀ i ∈ tl, ∀ msg, provider i ≠ .error msg :=
      fun i hi => hpre i (by simp [hi])
    cases hp : provider hd with
    | error msg => exact absurd hp (hhd msg)
    | ok o =>
      cases o with
      | none => simpa [groupedLoop, hp] using ih post htl
      | some df => simp [groupedLoop, hp, ih post htl]

theorem groupedLoop_skip_none {α : Type}
    (provider : String → Except String (Option (List α))) (top_n : Int)
    (sk : String) (hsk : provider sk = .ok none) :
    ∀ l1 l2, groupedLoop provider top_n (l1 ++ sk :: l2) =
      groupedLoop provider top_n (l1 ++ l2) := by
  intro l1
  induction l1 with
  | nil => intro l2; simp [groupedLoop, hsk]
  | cons hd tl ih =>
    intro l2
    cases hp : provider hd with
    | error msg => simp [groupedLoop, hp]
    | ok o =>
      cases o with
      | none => simp [groupedLoop, hp, ih]
      | some df => simp [groupedLoop, hp, ih]

/-! ### Claim theorems -/

/-- C1 (code bug): the claim says every top-entity resolver truncates to the
first N provider entries, but `get_top_mutual_funds` (server.py line 92) never
slices with `top_n`: with two provider entries and `top_n = 1` it returns both
lines, while `get_top_etfs` on the same input correctly returns one. -/
theorem c1_mutual_funds_ignore_top_n :
    get_top_mutual_funds [("A", "Alpha"), ("B", "Beta")] 1 = "A: Alpha\nB: Beta"
  ∧ get_top_etfs [("A", "Alpha"), ("B", "Beta")] 1 = "A: Alpha"
  ∧ "A: Alpha\nB: Beta" ≠ "A: Alpha" := by
  refine ⟨rfl, rfl, by decide⟩

/-- C7: for every requested count `top_n ≤ 0`, each of the five top-entity
resolvers returns exactly the literal string "top_n must be greater than 0",
whatever the sector data or providers are. -/
theorem c7_top_n_validation {α : Type} (etfs funds : List (String × String))
    (sector : String) (provC : Except String (Option (List α)))
    (provG provP : String → Except String (Option (List α)))
    (inds inds' : List String) (top_n : Int) (h : top_n ≤ 0) :
    get_top_etfs etfs top_n = "top_n must be greater than 0"
  ∧ get_top_mutual_funds funds top_n = "top_n must be greater than 0"
  ∧ get_top_companies sector top_n provC = .plain "top_n must be greater than 0"
  ∧ get_top_growth_companies top_n provG inds = .plain "top_n must be greater than 0"
  ∧ get_top_performing_companies top_n provP inds' =
      .plain "top_n must be greater than 0" := by
  have h1 : top_n < 1 := by omega
  exact ⟨by simp [get_top_etfs, h1], by simp [get_top_mutual_funds, h1],
    by simp [get_top_companies, h1], by simp [get_top_growth_companies, h1],
    by simp [get_top_performing_companies, h1]⟩

theorem c7_top_n_validation_witness :
    get_top_etfs [("A", "Alpha")] 0 = "top_n must be greater than 0"
  ∧ get_top_mutual_funds [("A", "Alpha")] 0 = "top_n must be greater than 0"
  ∧ get_top_companies "technology" 0 (Except.ok (some [(1 : Nat)])) =
      .plain "top_n must be greater than 0"
  ∧ get_top_growth_companies 0 (fun _ => Except.ok (some [(1 : Nat)])) ["software"] =
      .plain "top_n must be greater than 0"
  ∧ get_top_performing_companies 0 (fun _ => Except.ok (some [(1 : Nat)])) ["software"] =
      .plain "top_n must be greater than 0" :=
  c7_top_n_validation [("A", "Alpha")] [("A", "Alpha")] "technology"
    (Except.ok (some [1])) (fun _ => Except.ok (some [1]))
    (fun _ => Except.ok (some [1])) ["software"] ["software"] 0 (by decide)

/-- C9: in every resolver the `top_n < 1` check precedes any provider
interaction: for `top_n ≤ 0` the outcome is the validation string and is
independent of the sector value, the provider data, and provider failure. -/
theorem c9_validation_before_provider {α : Type} (top_n : Int) (h : top_n ≤ 0)
    (etfs etfs' funds funds' : List (String × String)) (sector sector' : String)
    (provC provC' : Except String (Option (List α)))
    (provG provG' provP provP' : String → Except String (Option (List α)))
    (inds inds' jnds jnds' : List String) :
    get_top_etfs etfs top_n = get_top_etfs etfs' top_n
  ∧ get_top_mutual_funds funds top_n = get_top_mutual_funds funds' top_n
  ∧ get_top_companies sector top_n provC = get_top_companies sector' top_n provC'
  ∧ get_top_growth_companies top_n provG inds =
      get_top_growth_companies top_n provG' inds'
  ∧ get_top_performing_companies top_n provP jnds =
      get_top_performing_companies top_n provP' jnds'
  ∧ get_top_companies sector top_n
      (Except.error "provider failure" : Except String (Option (List α))) =
      .plain "top_n must be greater than 0" := by
  have h1 : top_n < 1 := by omega
  exact ⟨by simp [get_top_etfs, h1], by simp [get_top_mutual_funds, h1],
    by simp [get_top_companies, h1], by simp [get_top_growth_companies, h1],
    by simp [get_top_performing_companies, h1], by simp [get_top_companies, h1]⟩

theorem c9_validation_before_provider_witness :
    get_top_etfs [("A", "Alpha")] (-3) = get_top_etfs [] (-3)
  ∧ get_top_mutual_funds [("B", "Beta")] (-3) = get_top_mutual_funds [] (-3)
  ∧ get_top_companies "technology" (-3) (Except.ok (some [(1 : Nat)])) =
      get_top_companies "energy" (-3) (Except.error "boom")
  ∧ get_top_growth_companies (-3) (fun _ => Except.ok (some [(1 : Nat)])) ["software"] =
      get_top_growth_companies (-3) (fun _ => Except.error "boom") []
  ∧ get_top_performing_companies (-3) (fun _ => Except.ok (some [(1 : Nat)])) ["software"] =
      get_top_performing_companies (-3) (fun _ => Except.error "boom") []
  ∧ get_top_companies "technology" (-3)
      (Except.error "provider failure" : Except String (Option (List Nat))) =
      .plain "top_n must be greater than 0" :=
  c9_validation_before_provider (-3) (by decide) [("A", "Alpha")] [] [("B", "Beta")] []
    "technology" "energy" (Except.ok (some [1])) (Except.error "boom")
    (fun _ => Except.ok (some [1])) (fun _ => Except.error "boom")
    (fun _ => Except.ok (some [1])) (fun _ => Except.error "boom")
    ["software"] [] ["software"] []

/-- C8: `search` matches its selector case-insensitively against "all",
"quotes" and "news", returns exactly the corresponding sub-result of the one
provider search call, and answers any unrecognized selector with a literal
error string naming the valid choices. -/
theorem c8_search_selector {α : Type} (s : SearchData α) (t : String) :
    (pyLower t = "all" → search s t = .json s.all)
  ∧ (pyLower t = "quotes" → search s t = .json s.quotes)
  ∧ (pyLower t = "news" → search s t = .json s.news)
  ∧ (pyLower t ≠ "all" → pyLower t ≠ "quotes" → pyLower t ≠ "news" →
      search s t = .plain "Invalid output_type. Use 'all', 'quotes', or 'news'.") := by
  refine ⟨fun h => ?_, fun h => ?_, fun h => ?_, fun h1 h2 h3 => ?_⟩ <;>
    simp_all [search]

theorem c8_search_selector_witness :
    search (⟨1, 2, 3⟩ : SearchData Nat) "QUOTES" = .json 2
  ∧ search (⟨1, 2, 3⟩ : SearchData Nat) "bogus" =
      .plain "Invalid output_type. Use 'all', 'quotes', or 'news'." :=
  ⟨(c8_search_selector ⟨1, 2, 3⟩ "QUOTES").2.1 (by decide),
   (c8_search_selector ⟨1, 2, 3⟩ "bogus").2.2.2 (by decide) (by decide) (by decide)⟩

/-- C3: in `get_ticker_info`, every entry whose key is a string ending
(case-insensitively) in a date-like suffix and whose value is a valid
epoch-seconds number is rewritten to the "YYYY-MM-DD HH:MM:SS" rendering of
that timestamp; entries whose value fails this interpretation, entries with
non-matching keys, and entries with non-string keys are kept unchanged; and
the whole record is always returned in full (same length, per-field failures
never abort the call). -/
theorem c3_ticker_info_normalization (info : List (PyKey × PyVal)) :
    (get_ticker_info info).length = info.length
  ∧ (∀ (i : Nat) (k : String) (n : Int),
      info[i]? = some (PyKey.str k, PyVal.int n) → hasDateSuffix k = true →
      epochInRange n = true →
      (get_ticker_info info)[i]? = some (PyKey.str k, PyVal.str (formatEpoch n)))
  ∧ (∀ (i : Nat) (k : String) (v : PyVal),
      info[i]? = some (PyKey.str k, v) → hasDateSuffix k = true →
      fromtimestampOpt v = none →
      (get_ticker_info info)[i]? = some (PyKey.str k, v))
  ∧ (∀ (i : Nat) (k : String) (v : PyVal),
      info[i]? = some (PyKey.str k, v) → hasDateSuffix k = false →
      (get_ticker_info info)[i]? = some (PyKey.str k, v))
  ∧ (∀ (i : Nat) (v : PyVal), info[i]? = some (PyKey.other, v) →
      (get_ticker_info info)[i]? = some (PyKey.other, v)) := by
  refine ⟨List.length_map info convertEntry, ?_, ?_, ?_, ?_⟩
  · intro i k n h hsuf hrange
    rw [get_ticker_info, List.getElem?_map, h]
    simp [convertEntry, hsuf, fromtimestampOpt, hrange]
  · intro i k v h hsuf hfail
    rw [get_ticker_info, List.getElem?_map, h]
    simp [convertEntry, hsuf, hfail]
  · intro i k v h hsuf
    rw [get_ticker_info, List.getElem?_map, h]
    simp [convertEntry, hsuf]
  · intro i v h
    rw [get_ticker_info, List.getElem?_map, h]
    simp [convertEntry]

theorem c3_ticker_info_normalization_witness :
    (get_ticker_info
        [(.str "exDividendDate", .int 1700000000), (.str "symbol", .str "AAPL"),
         (.str "lastSplitDate", .str "oops"), (.other, .null)])[0]? =
      some (.str "exDividendDate", .str (formatEpoch 1700000000)) :=
  (c3_ticker_info_normalization
      [(.str "exDividendDate", .int 1700000000), (.str "symbol", .str "AAPL"),
       (.str "lastSplitDate", .str "oops"), (.other, .null)]).2.1
    0 "exDividendDate" 1700000000 (by decide) (by decide) (by decide)

/-- C4: a provider exception is caught and turned into a JSON error object
only in `get_top_companies` (which also answers a missing table with a JSON
error object), while in the grouped resolvers an exception from any
per-industry call propagates uncaught (`.raised`) and aborts the remaining
industries — the outcome ignores every industry after the failing one — and
an industry yielding no table is silently skipped. -/
theorem c4_provider_failure_asymmetry {α : Type} (sector : String) (top_n : Int)
    (hn : 1 ≤ top_n) (e : String)
    (provider skipProv : String → Except String (Option (List α)))
    (pre post : List String) (bad : String)
    (hpre : ∀ i ∈ pre, ∀ msg, provider i ≠ .error msg)
    (hbad : provider bad = .error e)
    (sk : String) (hsk : skipProv sk = .ok none) (l1 l2 : List String) :
    get_top_companies sector top_n (Except.error e : Except String (Option (List α))) =
      .jsonError ("Failed to get top companies for sector '" ++ sector ++ "': " ++ e)
  ∧ get_top_companies sector top_n (Except.ok (none : Option (List α))) =
      .jsonError ("No top companies available for " ++ sector ++ " sector.")
  ∧ get_top_growth_companies top_n provider (pre ++ bad :: post) = .raised e
  ∧ get_top_performing_companies top_n provider (pre ++ bad :: post) = .raised e
  ∧ get_top_growth_companies top_n skipProv (l1 ++ sk :: l2) =
      get_top_growth_companies top_n skipProv (l1 ++ l2)
  ∧ get_top_performing_companies top_n skipProv (l1 ++ sk :: l2) =
      get_top_performing_companies top_n skipProv (l1 ++ l2) := by
  have h1 : ¬ top_n < 1 := by omega
  refine ⟨by simp [get_top_companies, h1], by simp [get_top_companies, h1],
    ?_, ?_, ?_, ?_⟩
  · simp [get_top_growth_companies, h1,
      groupedLoop_error_abort provider top_n e bad hbad pre post hpre]
  · simp [get_top_performing_companies, h1,
      groupedLoop_error_abort provider top_n e bad hbad pre post hpre]
  · simp [get_top_growth_companies, h1,
      groupedLoop_skip_none skipProv top_n sk hsk l1 l2]
  · simp [get_top_performing_companies, h1,
      groupedLoop_skip_none skipProv top_n sk hsk l1 l2]

/-- The witness provider: raises on "bad", yields no table on "skip", and a
three-row table elsewhere. -/
def witnessProvider : String → Except String (Option (List Nat)) :=
  fun i =>
    if i = "bad" then .error "boom"
    else if i = "skip" then .ok none
    else .ok (some [1, 2, 3])

theorem c4_provider_failure_asymmetry_witness :
    get_top_companies "technology" 2 (Except.error "boom" : Except String (Option (List Nat))) =
      .jsonError ("Failed to get top companies for sector '" ++ "technology" ++ "': " ++ "boom")
  ∧ get_top_companies "technology" 2 (Except.ok (none : Option (List Nat))) =
      .jsonError ("No top companies available for " ++ "technology" ++ " sector.")
  ∧ get_top_growth_companies 2 witnessProvider (["good"] ++ "bad" :: ["later"]) = .raised "boom"
  ∧ get_top_performing_companies 2 witnessProvider (["good"] ++ "bad" :: ["later"]) = .raised "boom"
  ∧ get_top_growth_companies 2 witnessProvider (["good"] ++ "skip" :: ["other"]) =
      get_top_growth_companies 2 witnessProvider (["good"] ++ ["other"])
  ∧ get_top_performing_companies 2 witnessProvider (["good"] ++ "skip" :: ["other"]) =
      get_top_performing_companies 2 witnessProvider (["good"] ++ ["other"]) :=
  c4_provider_failure_asymmetry "technology" 2 (by decide) "boom"
    witnessProvider witnessProvider ["good"] ["later"] "bad"
    (by intro i hi msg h
        simp only [List.mem_singleton] at hi
        subst hi
        have hgood : witnessProvider "good" = .ok (some [1, 2, 3]) := rfl
        rw [hgood] at h
        exact Except.noConfusion h)
    rfl "skip" rfl ["good"] ["other"]

/-- C2: when the fetched daily series is non-empty, `calculate_profit_loss`
returns a result whose start/end prices are the first and last closes in time
order, whose profit_loss is their difference, whose percent_change is
profit_loss / start_price × 100 exactly when start_price ≠ 0 and `none`
otherwise (profit_loss staying numeric), and which carries the symbol and the
two input date strings verbatim. -/
theorem c2_profit_loss_computation (fetch : PyDateTime → PyDateTime → List Rat)
    (symbol s e : String) (sd ed : PyDateTime) (c : Rat) (cs : List Rat)
    (hs : parseISO s = some sd) (he : parseISO e = some ed)
    (hlt : sd.toSecs < ed.toSecs)
    (hfetch : fetch sd (ed.addDays 1) = c :: cs) :
    ∃ r, calculate_profit_loss fetch symbol s e = .result r
      ∧ r.symbol = symbol ∧ r.start_date = s ∧ r.end_date = e
      ∧ r.start_price = c
      ∧ r.end_price = (c :: cs).getLastD 0
      ∧ r.profit_loss = r.end_price - r.start_price
      ∧ (r.start_price ≠ 0 → r.percent_change = some (r.profit_loss / r.start_price * 100))
      ∧ (r.start_price = 0 → r.percent_change = none) := by
  have hnle : ¬ ed.toSecs ≤ sd.toSecs := not_le.mpr hlt
  refine ⟨⟨symbol, s, e, c, (c :: cs).getLastD 0, (c :: cs).getLastD 0 - c,
      if c ≠ 0 then some (((c :: cs).getLastD 0 - c) / c * 100) else none⟩,
    ?_, rfl, rfl, rfl, rfl, rfl, rfl, ?_, ?_⟩
  · simp [calculate_profit_loss, hs, he, hnle, hfetch, plFromHistory]
  · intro h
    simp only [if_pos h]
  · intro h
    have hc : c = 0 := h
    simp [hc]

theorem c2_profit_loss_computation_witness :
    ∃ r, calculate_profit_loss (fun _ _ => [(10 : Rat), 12]) "ACME"
        "2024-01-02" "2024-01-05" = .result r
      ∧ r.symbol = "ACME" ∧ r.start_date = "2024-01-02" ∧ r.end_date = "2024-01-05"
      ∧ r.start_price = 10
      ∧ r.end_price = ((10 : Rat) :: [12]).getLastD 0
      ∧ r.profit_loss = r.end_price - r.start_price
      ∧ (r.start_price ≠ 0 → r.percent_change = some (r.profit_loss / r.start_price * 100))
      ∧ (r.start_price = 0 → r.percent_change = none) :=
  c2_profit_loss_computation (fun _ _ => [(10 : Rat), 12]) "ACME"
    "2024-01-02" "2024-01-05" ⟨2024, 1, 2, 0, 0, 0⟩ ⟨2024, 1, 5, 0, 0, 0⟩ 10 [12]
    (by decide) (by decide) (by decide) rfl

/-- C5: `calculate_profit_loss` requests the daily series with start equal to
the parsed start_date and end equal to the parsed end_date advanced by
exactly one calendar day (`addDays _ 1`, covering the closed requested range
against the provider's exclusive end bound), and the result is computed from
exactly that fetch. -/
theorem c5_fetch_range (fetch : PyDateTime → PyDateTime → List Rat)
    (symbol s e : String) (sd ed : PyDateTime)
    (hs : parseISO s = some sd) (he : parseISO e = some ed)
    (hlt : sd.toSecs < ed.toSecs) :
    calculate_profit_loss fetch symbol s e =
      plFromHistory symbol s e (fetch sd (ed.addDays 1)) := by
  have hnle : ¬ ed.toSecs ≤ sd.toSecs := not_le.mpr hlt
  simp [calculate_profit_loss, hs, he, hnle]

theorem c5_fetch_range_witness :
    PyDateTime.addDays ⟨2024, 1, 5, 0, 0, 0⟩ 1 = ⟨2024, 1, 6, 0, 0, 0⟩
  ∧ calculate_profit_loss
        (fun _ endDt => if endDt = (⟨2024, 1, 6, 0, 0, 0⟩ : PyDateTime) then [(10 : Rat), 12] else [])
        "ACME" "2024-01-02" "2024-01-05" =
      plFromHistory "ACME" "2024-01-02" "2024-01-05"
        ((fun (_ endDt : PyDateTime) => if endDt = (⟨2024, 1, 6, 0, 0, 0⟩ : PyDateTime) then [(10 : Rat), 12] else [])
          ⟨2024, 1, 2, 0, 0, 0⟩ (PyDateTime.addDays ⟨2024, 1, 5, 0, 0, 0⟩ 1)) :=
  ⟨by decide,
   c5_fetch_range
     (fun _ endDt => if endDt = (⟨2024, 1, 6, 0, 0, 0⟩ : PyDateTime) then [(10 : Rat), 12] else [])
     "ACME" "2024-01-02" "2024-01-05" ⟨2024, 1, 2, 0, 0, 0⟩ ⟨2024, 1, 5, 0, 0, 0⟩
     (by decide) (by decide) (by decide)⟩

/-- C6: whenever both inputs parse as ISO dates with start ≥ end,
`calculate_profit_loss` returns the JSON error object with the fixed message
"start_date must be earlier than end_date", independently of the symbol and
of the provider fetch; and this runs after the date-format check, which on a
non-parsing input returns a JSON error naming the offending value. -/
theorem c6_order_check (fetch fetch' : PyDateTime → PyDateTime → List Rat)
    (symbol symbol' s e : String) :
    (∀ sd ed, parseISO s = some sd → parseISO e = some ed →
        ed.toSecs ≤ sd.toSecs →
        calculate_profit_loss fetch symbol s e =
          .jsonError "start_date must be earlier than end_date"
      ∧ calculate_profit_loss fetch symbol s e =
          calculate_profit_loss fetch' symbol' s e)
  ∧ (parseISO s = none →
      calculate_profit_loss fetch symbol s e = .jsonError (invalidDateMsg s))
  ∧ (∀ sd, parseISO s = some sd → parseISO e = none →
      calculate_profit_loss fetch symbol s e = .jsonError (invalidDateMsg e)) := by
  refine ⟨fun sd ed hs he hle => ?_, fun hs => ?_, fun sd hs he => ?_⟩
  · constructor <;> simp [calculate_profit_loss, hs, he, hle]
  · simp [calculate_profit_loss, hs]
  · simp [calculate_profit_loss, hs, he]

theorem c6_order_check_witness :
    (calculate_profit_loss (fun _ _ => [(1 : Rat), 2]) "AAPL"
        "2024-01-05" "2024-01-02" =
      .jsonError "start_date must be earlier than end_date"
    ∧ calculate_profit_loss (fun _ _ => [(1 : Rat), 2]) "AAPL"
        "2024-01-05" "2024-01-02" =
      calculate_profit_loss (fun _ _ => [(3 : Rat)]) "NOT-A-SYMBOL"
        "2024-01-05" "2024-01-02")
  ∧ calculate_profit_loss (fun _ _ => [(1 : Rat), 2]) "AAPL"
      "2024/01/05" "2024-01-02" = .jsonError (invalidDateMsg "2024/01/05") :=
  ⟨(c6_order_check (fun _ _ => [(1 : Rat), 2]) (fun _ _ => [(3 : Rat)])
      "AAPL" "NOT-A-SYMBOL" "2024-01-05" "2024-01-02").1
    ⟨2024, 1, 5, 0, 0, 0⟩ ⟨2024, 1, 2, 0, 0, 0⟩ (by decide) (by decide) (by decide),
   (c6_order_check (fun _ _ => [(1 : Rat), 2]) (fun _ _ => [(3 : Rat)])
      "AAPL" "NOT-A-SYMBOL" "2024/01/05" "2024-01-02").2.1 (by decide)⟩

/-- The time-of-day part of a datetime, in seconds. -/
def timeSecs (t : PyDateTime) : Int :=
  (t.hour : Int) * 3600 + (t.minute : Int) * 60 + (t.second : Int)

/-- C10: `calculate_profit_loss` accepts ISO date-times, not only bare
calendar dates: "2024-01-02T10:30" passes the format check, and the strict
ordering check compares full date-times, so two inputs on the same calendar
day with increasing times form a valid range and proceed to the fetch. -/
theorem c10_datetime_inputs :
    parseISO "2024-01-02T10:30" = some ⟨2024, 1, 2, 10, 30, 0⟩
  ∧ ∀ (fetch : PyDateTime → PyDateTime → List Rat) (symbol s e : String)
      (sd ed : PyDateTime),
      parseISO s = some sd → parseISO e = some ed →
      sd.year = ed.year → sd.month = ed.month → sd.day = ed.day →
      timeSecs sd < timeSecs ed →
      calculate_profit_loss fetch symbol s e =
        plFromHistory symbol s e (fetch sd (ed.addDays 1)) := by
  refine ⟨by decide, fun fetch symbol s e sd ed hs he hy hm hd ht => ?_⟩
  have hlt : sd.toSecs < ed.toSecs := by
    simp only [PyDateTime.toSecs]
    rw [hy, hm, hd]
    simp only [timeSecs] at ht
    omega
  have hnle : ¬ ed.toSecs ≤ sd.toSecs := not_le.mpr hlt
  simp [calculate_profit_loss, hs, he, hnle]

theorem c10_datetime_inputs_witness :
    calculate_profit_loss (fun _ _ => [(10 : Rat), 12]) "AAPL"
        "2024-01-02T10:30" "2024-01-02 11:00:30" =
      plFromHistory "AAPL" "2024-01-02T10:30" "2024-01-02 11:00:30"
        ((fun _ _ => [(10 : Rat), 12]) (⟨2024, 1, 2, 10, 30, 0⟩ : PyDateTime)
          (PyDateTime.addDays ⟨2024, 1, 2, 11, 0, 30⟩ 1)) :=
  c10_datetime_inputs.2 (fun _ _ => [(10 : Rat), 12]) "AAPL"
    "2024-01-02T10:30" "2024-01-02 11:00:30"
    ⟨2024, 1, 2, 10, 30, 0⟩ ⟨2024, 1, 2, 11, 0, 30⟩
    (by decide) (by decide) rfl rfl rfl (by decide)

end Yfmcp
